import Mathlib

/-!
Shallow embedding of fatcat_scholar/issue_db.py (SIM issue database
ingestion).  Python dataclasses become structures, the sqlite3 store
becomes an explicit state record with a pending/committed split (the
connection is opened with an implicit transaction; commit makes the
pending table contents durable), and the two external collaborators
(the fatcat container-lookup API and the elasticsearch release index)
become function-valued fields of an environment, with every outgoing
call recorded in an event trace.
-/

/-- Python exceptions that can escape the ingestion code paths. -/
inductive PyErr where
  | jsonDecodeError
  | keyError
  | assertionError
  | valueError
  | apiException (status : Nat)
  | programmingError
deriving DecidableEq, Repr

/-- Container entity returned by api.lookup_container; the client exposes
issnl, ident and wikidata_qid as optional strings. -/
structure ContainerEntity where
  issnl : Option String
  ident : Option String
  wikidata_qid : Option String
deriving DecidableEq, Repr

/-- Outcome of one call to the external container-lookup service:
either a container entity or an ApiException with an HTTP status. -/
inductive ApiResult where
  | found (c : ContainerEntity)
  | apiError (status : Nat)
deriving DecidableEq, Repr

/-- SimPubRow dataclass (issue_db.py lines 12-26). -/
structure SimPubRow where
  sim_pubid : String
  pub_collection : String
  title : String
  issn : Option String
  pub_type : Option String
  publisher : Option String
  container_issnl : Option String
  container_ident : Option String
  wikidata_qid : Option String
deriving DecidableEq, Repr

/-- SimIssueRow dataclass (issue_db.py lines 28-44). -/
structure SimIssueRow where
  issue_item : String
  sim_pubid : String
  year : Option Int
  volume : Option String
  issue : Option String
  first_page : Option Nat
  last_page : Option Nat
  release_count : Option Nat
deriving DecidableEq, Repr

/-- ReleaseCountsRow dataclass (issue_db.py lines 46-55). -/
structure ReleaseCountsRow where
  sim_pubid : String
  year_in_sim : Bool
  release_count : Nat
  year : Option Int
  volume : Option String
deriving DecidableEq, Repr

/-- A value bound to one sqlite parameter placeholder. -/
inductive SQLData where
  | null
  | int (i : Int)
  | text (s : String)
deriving DecidableEq, Repr

/-- Optional string as a bound sqlite value. -/
def optText : Option String → SQLData
  | none => SQLData.null
  | some s => SQLData.text s

/-- Optional integer as a bound sqlite value. -/
def optInt : Option Int → SQLData
  | none => SQLData.null
  | some i => SQLData.int i

/-- SimPubRow.tuple (issue_db.py lines 25-26), as the list of sqlite
parameter values it supplies, in order. -/
def SimPubRow.tupleData (r : SimPubRow) : List SQLData :=
  [SQLData.text r.sim_pubid, SQLData.text r.pub_collection, SQLData.text r.title,
   optText r.issn, optText r.pub_type, optText r.publisher,
   optText r.container_issnl, optText r.container_ident, optText r.wikidata_qid]

/-- Leading and trailing whitespace removed, as Python str.strip does
before int() parses. -/
def trimChars (cs : List Char) : List Char :=
  ((cs.dropWhile Char.isWhitespace).reverse.dropWhile Char.isWhitespace).reverse

/-- Numeric value of a list of decimal digit characters. -/
def digitsVal (cs : List Char) : Nat :=
  cs.foldl (fun n c => 10 * n + (c.toNat - 48)) 0

/-- Optional natural as a bound sqlite value. -/
def optNat : Option Nat → SQLData
  | none => SQLData.null
  | some n => SQLData.int (Int.ofNat n)

/-- SimIssueRow.tuple (issue_db.py lines 43-44), as sqlite parameter values. -/
def SimIssueRow.tupleData (r : SimIssueRow) : List SQLData :=
  [SQLData.text r.issue_item, SQLData.text r.sim_pubid, optInt r.year,
   optText r.volume, optText r.issue, optNat r.first_page, optNat r.last_page,
   optNat r.release_count]

/-- ReleaseCountsRow.tuple (issue_db.py lines 54-55), as sqlite parameter
values: (sim_pubid, year, volume, year_in_sim, release_count), five values
in this order; the Python bool binds as integer 0 or 1. -/
def ReleaseCountsRow.tupleData (r : ReleaseCountsRow) : List SQLData :=
  [SQLData.text r.sim_pubid, optInt r.year, optText r.volume,
   SQLData.int (if r.year_in_sim then 1 else 0), SQLData.int (Int.ofNat r.release_count)]

/-- The SQL text of insert_sim_pub (issue_db.py line 116). -/
def sqlInsertSimPub : String := "INSERT OR REPLACE INTO sim_pub VALUES (?,?,?,?,?,?,?,?,?)"

/-- The SQL text of insert_sim_issue (issue_db.py line 122). -/
def sqlInsertSimIssue : String := "INSERT OR REPLACE INTO sim_issue VALUES (?,?,?,?,?,?,?,?)"

/-- The SQL text of insert_release_counts (issue_db.py line 128). -/
def sqlInsertReleaseCounts : String := "INSERT OR REPLACE INTO release_counts VALUES (?,?,?,?,?,?,?,?,?)"

/-- Number of parameter placeholders in a SQL statement; sqlite3 raises
ProgrammingError when the supplied binding tuple has a different length. -/
def countPlaceholders (sql : String) : Nat :=
  (sql.toList.filter (fun c => c = '?')).length

/-- Parsed pub-file metadata object: the fields of obj.metadata that
load_pubs reads.  Fields read with square brackets are required (a missing
key is a parse-level KeyError, folded into the parse function of the
environment); fields read with .get are optional. -/
structure PubMeta where
  collection : List String
  sim_pubid : String
  identifier : String
  title : String
  issn : Option String
  pub_type : Option String
  publisher : Option String
deriving DecidableEq, Repr

/-- One parsed JSON line of publication input. -/
structure PubObj where
  metadata : PubMeta
deriving DecidableEq, Repr

/-- One element of obj.page_numbers.pages, carrying a free-form
pageNumber string. -/
structure PageDescriptor where
  pageNumber : String
deriving DecidableEq, Repr

/-- The obj.page_numbers sub-object of an issue line. -/
structure PageNumbers where
  pages : List PageDescriptor
deriving DecidableEq, Repr

/-- Parsed issue-file metadata object: the fields of obj.metadata that
load_issues reads. -/
structure IssueMeta where
  collection : List String
  identifier : String
  sim_pubid : String
  date : Option String
  volume : Option String
  issue : Option String
deriving DecidableEq, Repr

/-- One parsed JSON line of issue input. -/
structure IssueObj where
  metadata : IssueMeta
  page_numbers : Option PageNumbers
deriving DecidableEq, Repr

/-- Python truthiness of an optional string: None and the empty string
are falsy. -/
def strOptTruthy : Option String → Bool
  | none => false
  | some s => s != ""

/-- Python truthiness of an optional integer: None and 0 are falsy. -/
def intOptTruthy : Option Int → Bool
  | none => false
  | some i => i != 0

/-- Maximal codepoint ranges of the decimal digits (Unicode category
Nd, every script): the characters both str.isdigit and int() accept; the
decimal value of a codepoint is its offset from its range start.
Transcribed from the Unicode 14.0 character database as shipped with
CPython 3.11. -/
def decimalRanges : List (Nat × Nat) :=
  [
   (48, 57), (1632, 1641), (1776, 1785), (1984, 1993), (2406, 2415), (2534, 2543),
   (2662, 2671), (2790, 2799), (2918, 2927), (3046, 3055), (3174, 3183), (3302, 3311),
   (3430, 3439), (3558, 3567), (3664, 3673), (3792, 3801), (3872, 3881), (4160, 4169),
   (4240, 4249), (6112, 6121), (6160, 6169), (6470, 6479), (6608, 6617), (6784, 6793),
   (6800, 6809), (6992, 7001), (7088, 7097), (7232, 7241), (7248, 7257), (42528, 42537),
   (43216, 43225), (43264, 43273), (43472, 43481), (43504, 43513), (43600, 43609),
   (44016, 44025), (65296, 65305), (66720, 66729), (68912, 68921), (69734, 69743),
   (69872, 69881), (69942, 69951), (70096, 70105), (70384, 70393), (70736, 70745),
   (70864, 70873), (71248, 71257), (71360, 71369), (71472, 71481), (71904, 71913),
   (72016, 72025), (72784, 72793), (73040, 73049), (73120, 73129), (92768, 92777),
   (92864, 92873), (93008, 93017), (120782, 120791), (120792, 120801), (120802, 120811),
   (120812, 120821), (120822, 120831), (123200, 123209), (123632, 123641), (125264,
   125273), (130032, 130041)
  ]

/-- Codepoint ranges of the remaining Numeric_Type=Digit characters
(superscript and subscript digits, circled digits, and similar):
str.isdigit accepts them but int() raises ValueError on them.
Transcribed from the same Unicode 14.0 database. -/
def digitOnlyRanges : List (Nat × Nat) :=
  [
   (178, 179), (185, 185), (4969, 4977), (6618, 6618), (8304, 8304), (8308, 8313),
   (8320, 8329), (9312, 9320), (9332, 9340), (9352, 9360), (9450, 9450), (9461, 9469),
   (9471, 9471), (10102, 10110), (10112, 10120), (10122, 10130), (68160, 68163), (69216,
   69224), (69714, 69722), (127232, 127242)
  ]

/-- Offset of a number inside the first enclosing range of a table. -/
def lookupRange : List (Nat × Nat) → Nat → Option Nat
  | [], _ => none
  | (lo, hi) :: rest, n => if lo ≤ n && n ≤ hi then some (n - lo) else lookupRange rest n

/-- Membership of a number in one of the ranges of a table. -/
def inRanges (t : List (Nat × Nat)) (n : Nat) : Bool := (lookupRange t n).isSome

/-- Decimal value of a character when it is a decimal digit (category
Nd) of any script, as int() assigns it. -/
def charDecimalVal (c : Char) : Option Nat := lookupRange decimalRanges c.toNat

/-- Python str.isdigit on one character: the decimal digits plus the
Numeric_Type=Digit characters that int() rejects. -/
def pyCharIsDigit (c : Char) : Bool :=
  (charDecimalVal c).isSome || inRanges digitOnlyRanges c.toNat

/-- Python str.isdigit: true on a non-empty string all of whose
characters are digits (Numeric_Type Decimal or Digit). -/
def pyIsDigit (s : String) : Bool :=
  s != "" && s.toList.all pyCharIsDigit

/-- A label composed entirely of decimal digits in the sense of the spec
and of int(): non-empty with every character of category Nd. -/
def isDecimalLabel (s : String) : Bool :=
  s != "" && s.toList.all (fun c => (charDecimalVal c).isSome)

/-- Base-10 value of a decimal-digit label, each character contributing
its Unicode decimal value. -/
def labelVal (s : String) : Nat :=
  s.toList.foldl (fun n c => 10 * n + (charDecimalVal c).getD 0) 0

/-- Python int() applied to a page label that already passed the
str.isdigit guard (issue_db.py line 208): such a label holds only
digit-class characters, so no sign, whitespace or underscore handling of
int() applies: the call succeeds exactly on labels composed entirely of
decimal digits (category Nd), giving their base-10 value, and raises
ValueError on the others (Numeric_Type=Digit characters such as the
superscript two). -/
def intOfDigitLabel (s : String) : Except PyErr Nat :=
  if s != "" && s.toList.all (fun c => (charDecimalVal c).isSome) then
    Except.ok (labelVal s)
  else Except.error PyErr.valueError

/-- The list comprehension of issue_db.py line 208: keep the labels
str.isdigit accepts and parse each with int(), in order; the first int()
failure raises out of the comprehension. -/
def parseLabels : List String → Except PyErr (List Nat)
  | [] => Except.ok []
  | s :: rest =>
      match intOfDigitLabel s with
      | Except.error e => Except.error e
      | Except.ok v =>
          match parseLabels rest with
          | Except.error e => Except.error e
          | Except.ok vs => Except.ok (v :: vs)

/-- Python str.endswith, on the character lists of the strings. -/
def strEndsWith (s suffix : String) : Bool :=
  suffix.toList.isSuffixOf s.toList

/-- Python int(str) on a character list: optional surrounding whitespace,
an optional sign, then at least one decimal digit; anything else raises
ValueError. -/
def pyIntChars (cs : List Char) : Except PyErr Int :=
  match trimChars cs with
  | [] => Except.error PyErr.valueError
  | c :: rest =>
      if c = '-' then
        if !rest.isEmpty && rest.all Char.isDigit then
          Except.ok (-(Int.ofNat (digitsVal rest)))
        else Except.error PyErr.valueError
      else if c = '+' then
        if !rest.isEmpty && rest.all Char.isDigit then
          Except.ok (Int.ofNat (digitsVal rest))
        else Except.error PyErr.valueError
      else if (c :: rest).all Char.isDigit then
        Except.ok (Int.ofNat (digitsVal (c :: rest)))
      else Except.error PyErr.valueError

/-- Python int(str). -/
def pyInt (s : String) : Except PyErr Int := pyIntChars s.toList

/-- Year derivation of load_issues (issue_db.py lines 198-200): when
meta.get(date) is truthy, year is int applied to the first four characters
of the date string, else year stays None. -/
def yearOfDate : Option String → Except PyErr (Option Int)
  | none => Except.ok none
  | some d =>
      if d = "" then Except.ok none
      else (pyIntChars (d.toList.take 4)).map some

/-- Python min and max over a list, as used on the surviving parsed page
numbers: absent on the empty list, otherwise folds over the tail. -/
def pageMinMax (vals : List Nat) : Option Nat × Option Nat :=
  match vals with
  | [] => (none, none)
  | v :: vs => (some (vs.foldl min v), some (vs.foldl max v))

/-- Page-range extraction of load_issues (issue_db.py lines 204-211):
keep truthy pageNumber strings, keep the ones str.isdigit accepts, parse
each with int() (which can raise ValueError on Numeric_Type=Digit
labels), and take min and max of the surviving list; both absent when
nothing survives or when obj.get(page_numbers) is falsy. -/
def pageRange (pn : Option PageNumbers) : Except PyErr (Option Nat × Option Nat) :=
  match pn with
  | none => Except.ok (none, none)
  | some p =>
      let pages1 := (p.pages.map PageDescriptor.pageNumber).filter (fun s => s != "")
      match parseLabels (pages1.filter pyIsDigit) with
      | Except.error e => Except.error e
      | Except.ok vals => Except.ok (pageMinMax vals)

/-- Page extraction described by the words of the spec: discard empty
pageNumber values, keep only values composed entirely of decimal digits,
parse them as integers. -/
def specNumericPages (labels : List String) : List Nat :=
  labels.filterMap (fun s => if isDecimalLabel s then some (labelVal s) else none)

/-- The first_page the spec prescribes: the minimum of the digit-only
page set, absent when the set is empty. -/
def specFirstPage (labels : List String) : Option Nat :=
  (specNumericPages labels).min?

/-- The last_page the spec prescribes: the maximum of the digit-only
page set, absent when the set is empty. -/
def specLastPage (labels : List String) : Option Nat :=
  (specNumericPages labels).max?

/-- One observable outgoing interaction of a run: an external container
lookup by ISSN, a store SELECT inside pubid2container, or a release-count
query carrying its four exact-term filters. -/
inductive ExtEvent where
  | containerLookup (issnl : String)
  | pubSelect (sim_pubid : String)
  | esCount (container_id : String) (year : Int) (volume : String) (issue : String)
deriving DecidableEq, Repr

/-- The three tables of the sqlite file. -/
structure DBFile where
  sim_pub : List SimPubRow
  sim_issue : List SimIssueRow
  release_counts : List ReleaseCountsRow
deriving DecidableEq, Repr

/-- Whole state of one run: the durable (committed) file contents, the
pending view of the open transaction (the connection is opened with
isolation_level EXCLUSIVE, so inserts are buffered until db.commit), the
in-process _pubid2container_map cache, the trace of outgoing calls, and
how many commits have been executed. -/
structure RunState where
  committed : DBFile
  pending : DBFile
  cache : List (String × Option String)
  trace : List ExtEvent
  commits : Nat
deriving DecidableEq, Repr

/-- Result of a loop or an entry point: normal return, or a propagating
exception together with the state at the moment of the raise. -/
inductive RunResult where
  | ok (st : RunState)
  | err (e : PyErr) (st : RunState)
deriving DecidableEq, Repr

/-- Record one outgoing call in the trace. -/
def addTrace (e : ExtEvent) (st : RunState) : RunState :=
  { st with trace := e :: st.trace }

/-- Python dict assignment on _pubid2container_map, as shadowing
head-insertion in an association list. -/
def setCache (k : String) (v : Option String) (st : RunState) : RunState :=
  { st with cache := (k, v) :: st.cache }

/-- Python dict lookup on _pubid2container_map: some v when the key is
present (v itself may be none, the explicit no-container outcome). -/
def lookupAssoc : List (String × Option String) → String → Option (Option String)
  | [], _ => none
  | (k0, v) :: rest, k => if k0 = k then some v else lookupAssoc rest k

/-- The commit at the end of a load call (cur.close(); self.db.commit()):
the pending transaction contents become durable. -/
def commitState (st : RunState) : RunState :=
  { st with committed := st.pending, commits := st.commits + 1 }

/-- Modelled from the spec: schema/issue_db.sql is not under src, so the
uniqueness constraint backing INSERT OR REPLACE is taken from the spec,
which fixes sim_pubid as the upsert key of the publication table; REPLACE
deletes any row with the same key and inserts the new row. -/
def upsertSimPub (r : SimPubRow) (tbl : List SimPubRow) : List SimPubRow :=
  tbl.filter (fun x => x.sim_pubid != r.sim_pubid) ++ [r]

/-- Modelled from the spec: schema/issue_db.sql is not under src, so the
uniqueness constraint backing INSERT OR REPLACE is taken from the spec,
which fixes issue_item (the item identifier) as the upsert key of the
issue table. -/
def upsertSimIssue (r : SimIssueRow) (tbl : List SimIssueRow) : List SimIssueRow :=
  tbl.filter (fun x => x.issue_item != r.issue_item) ++ [r]

/-- State after a successful insert_sim_pub: the row lands in the pending
transaction only. -/
def writeSimPub (r : SimPubRow) (st : RunState) : RunState :=
  { st with pending := { st.pending with sim_pub := upsertSimPub r st.pending.sim_pub } }

/-- State after a successful insert_sim_issue. -/
def writeSimIssue (r : SimIssueRow) (st : RunState) : RunState :=
  { st with pending := { st.pending with sim_issue := upsertSimIssue r st.pending.sim_issue } }

/-- IssueDB.insert_sim_pub (issue_db.py lines 113-117): cur.execute binds
the tuple of the row against the placeholders of the statement and raises
ProgrammingError on a length mismatch. -/
def insert_sim_pub (r : SimPubRow) (st : RunState) : Except PyErr RunState :=
  if countPlaceholders sqlInsertSimPub = (SimPubRow.tupleData r).length
  then Except.ok (writeSimPub r st)
  else Except.error PyErr.programmingError

/-- IssueDB.insert_sim_issue (issue_db.py lines 119-123). -/
def insert_sim_issue (r : SimIssueRow) (st : RunState) : Except PyErr RunState :=
  if countPlaceholders sqlInsertSimIssue = (SimIssueRow.tupleData r).length
  then Except.ok (writeSimIssue r st)
  else Except.error PyErr.programmingError

/-- IssueDB.insert_release_counts (issue_db.py lines 125-129): the SQL
text carries nine placeholders while ReleaseCountsRow.tuple supplies five
values; on success the row would land in the pending release_counts
table. -/
def insert_release_counts (r : ReleaseCountsRow) (st : RunState) : Except PyErr RunState :=
  if countPlaceholders sqlInsertReleaseCounts = (ReleaseCountsRow.tupleData r).length
  then Except.ok { st with pending := { st.pending with
        release_counts := st.pending.release_counts ++ [r] } }
  else Except.error PyErr.programmingError

/-- IssueDB.pubid2container (issue_db.py lines 131-140): consult the
in-process cache first (a cached None is a hit); on a miss run one SELECT
against the store, cache the first row's container_ident, or cache an
explicit None when no row matches. -/
def pubid2container (st : RunState) (spid : String) : Option String × RunState :=
  match lookupAssoc st.cache spid with
  | some v => (v, st)
  | none =>
      let st1 := addTrace (ExtEvent.pubSelect spid) st
      match st1.pending.sim_pub.filter (fun r => r.sim_pubid == spid) with
      | [] => (none, setCache spid none st1)
      | r :: _ => (r.container_ident, setCache spid r.container_ident st1)

/-- The two external services and the JSON-line parsers (json.loads plus
the square-bracket field accesses), supplied by the caller. -/
structure Env where
  api : String → ApiResult
  es : String → Int → String → String → Nat
  parsePub : String → Except PyErr PubObj
  parseIssue : String → Except PyErr IssueObj

/-- es_issue_count (issue_db.py lines 58-66): one count query against the
release index with exact-term filters on container_id, year, volume and
issue, recorded in the trace. -/
def es_issue_count (env : Env) (st : RunState) (container_id : String)
    (year : Int) (volume : String) (issue : String) : Nat × RunState :=
  (env.es container_id year volume issue,
   addTrace (ExtEvent.esCount container_id year volume issue) st)

/-- The try/except around api.lookup_container (issue_db.py lines
156-160): a 404 ApiException is swallowed leaving container as None, any
other ApiException is re-raised; the outgoing call is recorded either
way. -/
def lookup_container (env : Env) (st : RunState) (issnl : String) :
    Except PyErr (Option ContainerEntity) × RunState :=
  let st1 := addTrace (ExtEvent.containerLookup issnl) st
  match env.api issnl with
  | ApiResult.found c => (Except.ok (some c), st1)
  | ApiResult.apiError s =>
      if s = 404 then (Except.ok none, st1)
      else (Except.error (PyErr.apiException s), st1)

/-- Container resolution on the publication path (issue_db.py lines
154-160): the lookup happens only when meta.get(issn) is truthy. -/
def pubContainer (env : Env) (st : RunState) (meta : PubMeta) :
    Except PyErr (Option ContainerEntity) × RunState :=
  if strOptTruthy meta.issn then lookup_container env st (meta.issn.getD "")
  else (Except.ok none, st)

/-- Row construction of load_pubs (issue_db.py lines 161-171): the three
resolved fields are Python expressions of the form container and
container.field, which is None when container is None and otherwise the
(possibly None) attribute of the container. -/
def mkSimPubRow (meta : PubMeta) (container : Option ContainerEntity) : SimPubRow :=
  { sim_pubid := meta.sim_pubid
    pub_collection := meta.identifier
    title := meta.title
    issn := meta.issn
    pub_type := meta.pub_type
    publisher := meta.publisher
    container_issnl := container.bind ContainerEntity.issnl
    container_ident := container.bind ContainerEntity.ident
    wikidata_qid := container.bind ContainerEntity.wikidata_qid }

/-- Body of the load_pubs loop for one parsed object (issue_db.py lines
151-172): assert the periodicals marker, resolve the container, build the
row and insert it into the pending transaction. -/
def processPubObj (env : Env) (obj : PubObj) (st : RunState) : RunResult :=
  let meta := obj.metadata
  if "periodicals" ∈ meta.collection then
    let pc := pubContainer env st meta
    match pc.1 with
    | Except.error e => RunResult.err e pc.2
    | Except.ok container =>
        match insert_sim_pub (mkSimPubRow meta container) pc.2 with
        | Except.ok st2 => RunResult.ok st2
        | Except.error e => RunResult.err e pc.2
  else RunResult.err PyErr.assertionError st

/-- The for loop of load_pubs (issue_db.py lines 148-172): falsy (empty)
lines are skipped, other lines are parsed and processed; the first raise
stops the loop. -/
def loadPubsLoop (env : Env) : List String → RunState → RunResult
  | [], st => RunResult.ok st
  | line :: rest, st =>
      if line = "" then loadPubsLoop env rest st
      else
        match env.parsePub line with
        | Except.error e => RunResult.err e st
        | Except.ok obj =>
            match processPubObj env obj st with
            | RunResult.ok st1 => loadPubsLoop env rest st1
            | RunResult.err e st1 => RunResult.err e st1

/-- IssueDB.load_pubs (issue_db.py lines 142-174): run the loop over all
lines, then commit once; an exception propagates before any commit. -/
def load_pubs (env : Env) (lines : List String) (st : RunState) : RunResult :=
  match loadPubsLoop env lines st with
  | RunResult.ok st1 => RunResult.ok (commitState st1)
  | RunResult.err e st1 => RunResult.err e st1

/-- The release-count step of load_issues (issue_db.py lines 213-217):
only when year, volume and issue are all truthy is the container
resolved, and only a truthy container id triggers the count query. -/
def issueReleaseCount (env : Env) (st : RunState) (spid : String)
    (year : Option Int) (volume : Option String) (issue : Option String) :
    Option Nat × RunState :=
  if intOptTruthy year && strOptTruthy volume && strOptTruthy issue then
    let p := pubid2container st spid
    match p.1 with
    | some cid =>
        if cid != "" then
          let q := es_issue_count env p.2 cid (year.getD 0) (volume.getD "") (issue.getD "")
          (some q.1, q.2)
        else (none, p.2)
    | none => (none, p.2)
  else (none, st)

/-- Body of the load_issues loop for one parsed object (issue_db.py lines
185-229): assert the marker, drop meta items by identifier suffix, derive
year and page range, compute the release count, insert the row. -/
def processIssueObj (env : Env) (obj : IssueObj) (st : RunState) : RunResult :=
  let meta := obj.metadata
  if "periodicals" ∈ meta.collection then
    let issue_item := meta.identifier
    if strEndsWith issue_item "_index" || strEndsWith issue_item "_contents" then
      RunResult.ok st
    else
      match yearOfDate meta.date with
      | Except.error e => RunResult.err e st
      | Except.ok year =>
          match pageRange obj.page_numbers with
          | Except.error e => RunResult.err e st
          | Except.ok pr =>
              let rc := issueReleaseCount env st meta.sim_pubid year meta.volume meta.issue
              let row : SimIssueRow :=
                { issue_item := issue_item
                  sim_pubid := meta.sim_pubid
                  year := year
                  volume := meta.volume
                  issue := meta.issue
                  first_page := pr.1
                  last_page := pr.2
                  release_count := rc.1 }
              match insert_sim_issue row rc.2 with
              | Except.ok st2 => RunResult.ok st2
              | Except.error e => RunResult.err e rc.2
  else RunResult.err PyErr.assertionError st

/-- The for loop of load_issues (issue_db.py lines 182-229). -/
def loadIssuesLoop (env : Env) : List String → RunState → RunResult
  | [], st => RunResult.ok st
  | line :: rest, st =>
      if line = "" then loadIssuesLoop env rest st
      else
        match env.parseIssue line with
        | Except.error e => RunResult.err e st
        | Except.ok obj =>
            match processIssueObj env obj st with
            | RunResult.ok st1 => loadIssuesLoop env rest st1
            | RunResult.err e st1 => RunResult.err e st1

/-- IssueDB.load_issues (issue_db.py lines 176-231): the loop over all
lines followed by one commit. -/
def load_issues (env : Env) (lines : List String) (st : RunState) : RunResult :=
  match loadIssuesLoop env lines st with
  | RunResult.ok st1 => RunResult.ok (commitState st1)
  | RunResult.err e st1 => RunResult.err e st1

/-- Number of external container-lookup calls recorded in a state. -/
def extLookups (st : RunState) : Nat :=
  (st.trace.filter (fun e => match e with
    | ExtEvent.containerLookup _ => true
    | _ => false)).length

/-- Number of release-count queries recorded in a state. -/
def esQueries (st : RunState) : Nat :=
  (st.trace.filter (fun e => match e with
    | ExtEvent.esCount _ _ _ _ => true
    | _ => false)).length

/-- Number of pubid2container store SELECTs recorded in a state. -/
def storeQueries (st : RunState) : Nat :=
  (st.trace.filter (fun e => match e with
    | ExtEvent.pubSelect _ => true
    | _ => false)).length

/-- The state a run result carries (the raise-time state for an error). -/
def resultState : RunResult → RunState
  | RunResult.ok st => st
  | RunResult.err _ st => st

/-- The durable publication rows after a run result. -/
def pubsOf (r : RunResult) : List SimPubRow := (resultState r).committed.sim_pub

/-- The durable issue rows after a run result. -/
def issuesOf (r : RunResult) : List SimIssueRow := (resultState r).committed.sim_issue

/-- The empty store and fresh run state. -/
def emptyDB : DBFile := { sim_pub := [], sim_issue := [], release_counts := [] }

/-- A fresh run over an empty store. -/
def st0 : RunState :=
  { committed := emptyDB, pending := emptyDB, cache := [], trace := [], commits := 0 }

/-! ## Helper lemmas -/

@[simp]
theorem addTrace_commits (e : ExtEvent) (st : RunState) : (addTrace e st).commits = st.commits := rfl

@[simp]
theorem addTrace_committed (e : ExtEvent) (st : RunState) : (addTrace e st).committed = st.committed := rfl

@[simp]
theorem setCache_commits (k : String) (v : Option String) (st : RunState) :
    (setCache k v st).commits = st.commits := rfl

@[simp]
theorem setCache_committed (k : String) (v : Option String) (st : RunState) :
    (setCache k v st).committed = st.committed := rfl

@[simp]
theorem writeSimPub_commits (r : SimPubRow) (st : RunState) :
    (writeSimPub r st).commits = st.commits := rfl

@[simp]
theorem writeSimPub_committed (r : SimPubRow) (st : RunState) :
    (writeSimPub r st).committed = st.committed := rfl

@[simp]
theorem writeSimIssue_commits (r : SimIssueRow) (st : RunState) :
    (writeSimIssue r st).commits = st.commits := rfl

@[simp]
theorem writeSimIssue_committed (r : SimIssueRow) (st : RunState) :
    (writeSimIssue r st).committed = st.committed := rfl

theorem countPlaceholders_simPub : countPlaceholders sqlInsertSimPub = 9 := rfl

theorem countPlaceholders_simIssue : countPlaceholders sqlInsertSimIssue = 8 := rfl

theorem countPlaceholders_releaseCounts : countPlaceholders sqlInsertReleaseCounts = 9 := rfl

theorem insert_sim_pub_ok (r : SimPubRow) (st : RunState) :
    insert_sim_pub r st = Except.ok (writeSimPub r st) := by
  have h2 : (SimPubRow.tupleData r).length = 9 := rfl
  simp [insert_sim_pub, countPlaceholders_simPub, h2]

theorem insert_sim_issue_ok (r : SimIssueRow) (st : RunState) :
    insert_sim_issue r st = Except.ok (writeSimIssue r st) := by
  have h2 : (SimIssueRow.tupleData r).length = 8 := rfl
  simp [insert_sim_issue, countPlaceholders_simIssue, h2]

/-! ## C10 -/

/-- C10: for every ReleaseCountsRow the release-count-snapshot upsert
fails with ProgrammingError and never writes a row, because the SQL
statement carries nine placeholders while the bound tuple supplies only
five values. -/
theorem C10_insert_release_counts_always_fails (r : ReleaseCountsRow) (st : RunState) :
    insert_release_counts r st = Except.error PyErr.programmingError ∧
    countPlaceholders sqlInsertReleaseCounts = 9 ∧
    (ReleaseCountsRow.tupleData r).length = 5 := by
  refine ⟨?_, rfl, rfl⟩
  have h2 : (ReleaseCountsRow.tupleData r).length = 5 := rfl
  simp [insert_release_counts, countPlaceholders_releaseCounts, h2]

/-! ## C9 -/

/-- Rows of a publication table holding a given publication id. -/
def pubRowsFor (k : String) (tbl : List SimPubRow) : List SimPubRow :=
  tbl.filter (fun r => r.sim_pubid == k)

/-- Rows of an issue table holding a given item id. -/
def issueRowsFor (k : String) (tbl : List SimIssueRow) : List SimIssueRow :=
  tbl.filter (fun r => r.issue_item == k)

theorem pubRowsFor_upsert (r : SimPubRow) (tbl : List SimPubRow) :
    pubRowsFor r.sim_pubid (upsertSimPub r tbl) = [r] := by
  unfold pubRowsFor upsertSimPub
  simp

theorem issueRowsFor_upsert (r : SimIssueRow) (tbl : List SimIssueRow) :
    issueRowsFor r.issue_item (upsertSimIssue r tbl) = [r] := by
  unfold issueRowsFor upsertSimIssue
  simp

/-- C9: upserting two publication rows sharing one publication id leaves
exactly one row for that id, the second row (last write wins), never two;
the analogous property holds for issue rows keyed by item id. -/
theorem C9_upsert_last_write_wins (r1 r2 : SimPubRow) (tbl : List SimPubRow)
    (i1 i2 : SimIssueRow) (itbl : List SimIssueRow)
    (hp : r1.sim_pubid = r2.sim_pubid) (hi : i1.issue_item = i2.issue_item) :
    pubRowsFor r2.sim_pubid (upsertSimPub r2 (upsertSimPub r1 tbl)) = [r2] ∧
    issueRowsFor i2.issue_item (upsertSimIssue i2 (upsertSimIssue i1 itbl)) = [i2] :=
  ⟨pubRowsFor_upsert r2 (upsertSimPub r1 tbl), issueRowsFor_upsert i2 (upsertSimIssue i1 itbl)⟩

/-- A publication row with given id and title, other fields empty. -/
def pubRowW (spid : String) (title : String) : SimPubRow :=
  { sim_pubid := spid, pub_collection := "c", title := title, issn := none,
    pub_type := none, publisher := none, container_issnl := none,
    container_ident := none, wikidata_qid := none }

/-- An issue row with given item id and volume, other fields empty. -/
def issueRowW (item : String) (vol : Option String) : SimIssueRow :=
  { issue_item := item, sim_pubid := "p", year := none, volume := vol,
    issue := none, first_page := none, last_page := none, release_count := none }

/-- Witness for C9 at concrete rows differing in their non-key fields. -/
theorem C9_upsert_last_write_wins_witness :
    pubRowsFor "p1" (upsertSimPub (pubRowW "p1" "second") (upsertSimPub (pubRowW "p1" "first") [])) =
      [pubRowW "p1" "second"] ∧
    issueRowsFor "it1" (upsertSimIssue (issueRowW "it1" (some "2")) (upsertSimIssue (issueRowW "it1" (some "1")) [])) =
      [issueRowW "it1" (some "2")] :=
  C9_upsert_last_write_wins (pubRowW "p1" "first") (pubRowW "p1" "second") []
    (issueRowW "it1" (some "1")) (issueRowW "it1" (some "2")) [] rfl rfl

/-! ## C3 -/

theorem lookupAssoc_head (k : String) (v : Option String) (m : List (String × Option String)) :
    lookupAssoc ((k, v) :: m) k = some v := by
  simp [lookupAssoc]

theorem pubid2container_cached (st : RunState) (spid : String) (v : Option String)
    (h : lookupAssoc st.cache spid = some v) :
    pubid2container st spid = (v, st) := by
  unfold pubid2container
  rw [h]

theorem pubid2container_sets_cache (st : RunState) (spid : String) :
    lookupAssoc (pubid2container st spid).2.cache spid = some (pubid2container st spid).1 := by
  unfold pubid2container
  cases h : lookupAssoc st.cache spid with
  | some v => simp [h]
  | none =>
      simp only [h]
      split <;> simp [setCache, lookupAssoc]

theorem extLookups_addTrace_pubSelect (s : String) (st : RunState) :
    extLookups (addTrace (ExtEvent.pubSelect s) st) = extLookups st := by
  simp [extLookups, addTrace]

theorem storeQueries_addTrace_pubSelect (s : String) (st : RunState) :
    storeQueries (addTrace (ExtEvent.pubSelect s) st) = storeQueries st + 1 := by
  simp [storeQueries, addTrace]

theorem pubid2container_extLookups (st : RunState) (spid : String) :
    extLookups (pubid2container st spid).2 = extLookups st := by
  unfold pubid2container
  cases h : lookupAssoc st.cache spid with
  | some v => simp [h]
  | none =>
      simp only [h]
      split <;> simp [setCache, extLookups, addTrace]

theorem pubid2container_storeQueries (st : RunState) (spid : String) :
    storeQueries (pubid2container st spid).2 ≤ storeQueries st + 1 := by
  unfold pubid2container
  cases h : lookupAssoc st.cache spid with
  | some v => simp [h]
  | none =>
      simp only [h]
      split <;> simp [setCache, storeQueries, addTrace]

/-- C3 amendment: within one run, repeated pubid2container resolutions of
one publication id are memoized: the second call returns exactly the
first call's outcome with the state unchanged (no store query, no
external call), pubid2container itself never issues an external
container-lookup call, and a single resolution runs at most one store
query.  (The external lookup of the publication-ingestion pass is what
the counterexample shows is not deduplicated.) -/
theorem C3_pubid2container_memoized (st : RunState) (spid : String) :
    pubid2container (pubid2container st spid).2 spid = pubid2container st spid ∧
    extLookups (pubid2container st spid).2 = extLookups st ∧
    storeQueries (pubid2container st spid).2 ≤ storeQueries st + 1 := by
  refine ⟨?_, pubid2container_extLookups st spid, pubid2container_storeQueries st spid⟩
  rw [pubid2container_cached (pubid2container st spid).2 spid (pubid2container st spid).1
    (pubid2container_sets_cache st spid)]

/-- The container entity served by the external API in the C3 scenario. -/
def cont3 : ContainerEntity :=
  { issnl := some "1234-5678", ident := some "abc123", wikidata_qid := some "Q1" }

/-- Publication metadata carrying an ISSN, parsed from every line of the
C3 scenario: the same publication twice. -/
def pubMeta3 : PubMeta :=
  { collection := ["periodicals"], sim_pubid := "pub1", identifier := "sim_coll_pub1",
    title := "Example Journal", issn := some "1234-5678", pub_type := none,
    publisher := none }

/-- Environment of the C3 scenario. -/
def env3 : Env :=
  { api := fun _ => ApiResult.found cont3
    es := fun _ _ _ _ => 0
    parsePub := fun _ => Except.ok { metadata := pubMeta3 }
    parseIssue := fun _ => Except.error PyErr.jsonDecodeError }

/-- C3 counterexample: one load_pubs run over two input lines that parse
to the same publication record (same publication id, same ISSN) issues
two external container-lookup calls, not at most one: the
publication-ingestion pass consults no cache before calling the external
service.  The run succeeds and leaves a single upserted row, so the two
lines did resolve the same publication. -/
theorem C3_counterexample :
    extLookups (resultState (load_pubs env3 ["a", "b"] st0)) = 2 ∧
    env3.parsePub "a" = Except.ok { metadata := pubMeta3 } ∧
    env3.parsePub "b" = Except.ok { metadata := pubMeta3 } ∧
    (pubsOf (load_pubs env3 ["a", "b"] st0)).map SimPubRow.sim_pubid = ["pub1"] := by
  refine ⟨by decide, rfl, rfl, by decide⟩

/-! ## C2 -/

theorem isDecimalLabel_pyIsDigit (s : String) (h : isDecimalLabel s = true) :
    pyIsDigit s = true := by
  simp only [isDecimalLabel, Bool.and_eq_true, List.all_eq_true] at h
  simp only [pyIsDigit, Bool.and_eq_true, List.all_eq_true]
  exact ⟨h.1, fun c hc => by simp [pyCharIsDigit, h.2 c hc]⟩

theorem intOfDigitLabel_decimal (s : String) (h : isDecimalLabel s = true) :
    intOfDigitLabel s = Except.ok (labelVal s) := by
  unfold isDecimalLabel at h
  unfold intOfDigitLabel
  rw [h, if_pos rfl]

theorem intOfDigitLabel_not_decimal (s : String) (h : isDecimalLabel s = false) :
    intOfDigitLabel s = Except.error PyErr.valueError := by
  unfold isDecimalLabel at h
  unfold intOfDigitLabel
  rw [h]
  rfl

theorem parseLabels_all_decimal (labels : List String)
    (h : ∀ s ∈ labels, pyIsDigit s = true → isDecimalLabel s = true) :
    parseLabels ((labels.filter (fun s => s != "")).filter pyIsDigit) =
      Except.ok (specNumericPages labels) := by
  unfold specNumericPages
  induction labels with
  | nil => rfl
  | cons s ss ih =>
      have hss : ∀ t ∈ ss, pyIsDigit t = true → isDecimalLabel t = true :=
        fun t ht => h t (List.mem_cons_of_mem s ht)
      have ihs := ih hss
      simp only [List.filter_cons, List.filterMap_cons]
      cases h1 : (s != "") with
      | false =>
          have hd : isDecimalLabel s = false := by
            unfold isDecimalLabel
            rw [h1]
            rfl
          simp only [h1, hd, Bool.false_eq_true, if_false]
          exact ihs
      | true =>
          cases h2 : pyIsDigit s with
          | false =>
              have hd : isDecimalLabel s = false := by
                cases hdc : isDecimalLabel s with
                | false => rfl
                | true =>
                    have hpd := isDecimalLabel_pyIsDigit s hdc
                    rw [h2] at hpd
                    exact absurd hpd (by simp)
              simp only [h1, h2, hd, Bool.false_eq_true, if_false, eq_self_iff_true,
                if_true, List.filter_cons]
              exact ihs
          | true =>
              have hd : isDecimalLabel s = true := h s (List.mem_cons_self s ss) h2
              simp only [h1, h2, hd, eq_self_iff_true, if_true, List.filter_cons]
              rw [parseLabels, intOfDigitLabel_decimal s hd, ihs]

theorem parseLabels_error (labels : List String) (s : String)
    (hmem : s ∈ labels) (hdig : pyIsDigit s = true) (hdec : isDecimalLabel s = false) :
    parseLabels ((labels.filter (fun t => t != "")).filter pyIsDigit) =
      Except.error PyErr.valueError := by
  induction labels with
  | nil => cases hmem
  | cons a as ih =>
      simp only [List.filter_cons]
      rcases List.mem_cons.mp hmem with heq | hmem2
      · subst heq
        have hcopy := hdig
        simp only [pyIsDigit, Bool.and_eq_true] at hcopy
        have h1 : (s != "") = true := hcopy.1
        simp only [h1, hdig, eq_self_iff_true, if_true, List.filter_cons]
        rw [parseLabels, intOfDigitLabel_not_decimal s hdec]
      · cases h1 : (a != "") with
        | false =>
            simp only [h1, Bool.false_eq_true, if_false]
            exact ih hmem2
        | true =>
            cases h2 : pyIsDigit a with
            | false =>
                simp only [h1, h2, Bool.false_eq_true, if_false, eq_self_iff_true,
                  if_true, List.filter_cons]
                exact ih hmem2
            | true =>
                simp only [h1, h2, eq_self_iff_true, if_true, List.filter_cons]
                cases hda : isDecimalLabel a with
                | false => rw [parseLabels, intOfDigitLabel_not_decimal a hda]
                | true =>
                    rw [parseLabels, intOfDigitLabel_decimal a hda, ih hmem2]

theorem pageMinMax_eq (vals : List Nat) : pageMinMax vals = (vals.min?, vals.max?) := by
  cases vals <;> rfl

/-- C2 amendment: with page_numbers absent the range is absent and
nothing raises; when every label the str.isdigit guard accepts is
composed of decimal digits (category Nd, any script), the extraction
returns exactly the range the spec prescribes, min and max of the parsed
decimal labels, both absent when none survives, and labels rejected by
str.isdigit (non-numeric and roman-numeral ones among them) are invisible
and raise nothing; but as soon as some label passes str.isdigit without
being composed of decimal digits, int() raises ValueError and the
extraction aborts the run. -/
theorem C2_page_range_spec (pages : List PageDescriptor) :
    pageRange none = Except.ok (none, none) ∧
    ((∀ s ∈ pages.map PageDescriptor.pageNumber, pyIsDigit s = true →
        isDecimalLabel s = true) →
      pageRange (some { pages := pages }) =
        Except.ok (specFirstPage (pages.map PageDescriptor.pageNumber),
                   specLastPage (pages.map PageDescriptor.pageNumber))) ∧
    ((∃ s ∈ pages.map PageDescriptor.pageNumber, pyIsDigit s = true ∧
        isDecimalLabel s = false) →
      pageRange (some { pages := pages }) = Except.error PyErr.valueError) := by
  refine ⟨rfl, ?_, ?_⟩
  · intro h
    unfold pageRange
    dsimp only
    rw [parseLabels_all_decimal _ h]
    dsimp only
    rw [pageMinMax_eq]
    rfl
  · rintro ⟨s, hs, hdig, hdec⟩
    unfold pageRange
    dsimp only
    rw [parseLabels_error _ s hs hdig hdec]

/-- Witness for C2 at the spec example list, which is all-decimal where
it passes the digit guard, and at a list whose superscript label makes
the extraction raise. -/
theorem C2_page_range_spec_witness :
    pageRange (some { pages := [{ pageNumber := "12" }, { pageNumber := "ii" },
        { pageNumber := "14" }] }) = Except.ok (some 12, some 14) ∧
    pageRange (some { pages := [{ pageNumber := "²" }] }) =
      Except.error PyErr.valueError := by
  constructor
  · rw [(C2_page_range_spec [{ pageNumber := "12" }, { pageNumber := "ii" },
      { pageNumber := "14" }]).2.1 (by decide)]
    rfl
  · exact (C2_page_range_spec [{ pageNumber := "²" }]).2.2
      ⟨"²", by decide, by decide, by decide⟩

/-- Issue metadata of the C2 counterexample run. -/
def issueMeta2 : IssueMeta :=
  { collection := ["periodicals"], identifier := "sim_item_2", sim_pubid := "p2",
    date := none, volume := none, issue := none }

/-- The parsed issue line of the C2 counterexample: one page labelled
with the superscript two. -/
def issueObj2 : IssueObj :=
  { metadata := issueMeta2
    page_numbers := some { pages := [{ pageNumber := "²" }] } }

/-- Environment of the C2 counterexample run. -/
def env2 : Env :=
  { api := fun _ => ApiResult.apiError 404
    es := fun _ _ _ _ => 0
    parsePub := fun _ => Except.error PyErr.jsonDecodeError
    parseIssue := fun _ => Except.ok issueObj2 }

/-- C2 counterexample: the superscript-two label is not composed of
decimal digits, so the claim makes it invisible to the range with no
error, yet it passes the str.isdigit guard and int() raises ValueError,
aborting the whole load_issues run; an Arabic-Indic digit label is
meanwhile parsed at its decimal value 3 and enters the range. -/
theorem C2_counterexample :
    pyIsDigit "²" = true ∧ isDecimalLabel "²" = false ∧
    pageRange (some { pages := [{ pageNumber := "²" }] }) =
      Except.error PyErr.valueError ∧
    load_issues env2 ["x"] st0 = RunResult.err PyErr.valueError st0 ∧
    pageRange (some { pages := [{ pageNumber := "٣" }, { pageNumber := "12" }] }) =
      Except.ok (some 3, some 12) := by
  refine ⟨by decide, by decide, rfl, by decide, rfl⟩

/-! ## C1 -/

theorem esQueries_addTrace_pubSelect (s : String) (st : RunState) :
    esQueries (addTrace (ExtEvent.pubSelect s) st) = esQueries st := by
  simp [esQueries, addTrace]

theorem pubid2container_esQueries (st : RunState) (spid : String) :
    esQueries (pubid2container st spid).2 = esQueries st := by
  unfold pubid2container
  cases h : lookupAssoc st.cache spid with
  | some v => simp [h]
  | none =>
      simp only [h]
      split <;> simp [setCache, esQueries, addTrace]

theorem esQueries_addTrace_esCount (a : String) (b : Int) (c d : String) (st : RunState) :
    esQueries (addTrace (ExtEvent.esCount a b c d) st) = esQueries st + 1 := by
  simp [esQueries, addTrace]

theorem issueRC_not_truthy (env : Env) (st : RunState) (spid : String)
    (year : Option Int) (volume issue : Option String)
    (h : (intOptTruthy year && strOptTruthy volume && strOptTruthy issue) = false) :
    issueReleaseCount env st spid year volume issue = (none, st) := by
  unfold issueReleaseCount
  rw [h]
  rfl

theorem issueRC_no_container (env : Env) (st : RunState) (spid : String)
    (year : Option Int) (volume issue : Option String)
    (h : (intOptTruthy year && strOptTruthy volume && strOptTruthy issue) = true)
    (hp : (pubid2container st spid).1 = none) :
    issueReleaseCount env st spid year volume issue = (none, (pubid2container st spid).2) := by
  unfold issueReleaseCount
  rw [h, if_pos rfl]
  simp only [hp]

theorem issueRC_empty_cid (env : Env) (st : RunState) (spid : String)
    (year : Option Int) (volume issue : Option String)
    (h : (intOptTruthy year && strOptTruthy volume && strOptTruthy issue) = true)
    (hp : (pubid2container st spid).1 = some "") :
    issueReleaseCount env st spid year volume issue = (none, (pubid2container st spid).2) := by
  unfold issueReleaseCount
  rw [h, if_pos rfl]
  simp only [hp]
  rfl

theorem issueRC_query (env : Env) (st : RunState) (spid : String)
    (year : Option Int) (volume issue : Option String)
    (h : (intOptTruthy year && strOptTruthy volume && strOptTruthy issue) = true)
    (cid : String) (hp : (pubid2container st spid).1 = some cid)
    (hc : (cid != "") = true) :
    issueReleaseCount env st spid year volume issue =
      (some (env.es cid (year.getD 0) (volume.getD "") (issue.getD "")),
       addTrace (ExtEvent.esCount cid (year.getD 0) (volume.getD "") (issue.getD ""))
         (pubid2container st spid).2) := by
  unfold issueReleaseCount
  rw [h, if_pos rfl]
  simp only [hp, hc, if_pos rfl]
  rfl

/-- C1 amendment: the release-count query is issued, and a count stored,
exactly when year, volume and issue are all truthy in the Python sense
(present and non-zero, respectively non-empty) and pubid2container yields
a truthy (present, non-empty) container id; in every other case no query
is issued and the computed release_count is absent.  When issued, the
query carries exactly the resolved container id, year, volume and
issue. -/
theorem C1_release_count_truthy_iff (env : Env) (st : RunState) (spid : String)
    (year : Option Int) (volume issue : Option String) :
    (issueReleaseCount env st spid year volume issue).1 =
      (if intOptTruthy year && strOptTruthy volume && strOptTruthy issue &&
          strOptTruthy (pubid2container st spid).1 then
        some (env.es ((pubid2container st spid).1.getD "") (year.getD 0)
          (volume.getD "") (issue.getD ""))
      else none) ∧
    esQueries (issueReleaseCount env st spid year volume issue).2 =
      esQueries st +
        (if intOptTruthy year && strOptTruthy volume && strOptTruthy issue &&
            strOptTruthy (pubid2container st spid).1 then 1 else 0) := by
  cases h1 : (intOptTruthy year && strOptTruthy volume && strOptTruthy issue) with
  | false =>
      rw [issueRC_not_truthy env st spid year volume issue h1]
      simp [h1]
  | true =>
      cases hp : (pubid2container st spid).1 with
      | none =>
          rw [issueRC_no_container env st spid year volume issue h1 hp]
          simp [h1, hp, strOptTruthy, pubid2container_esQueries]
      | some cid =>
          cases hc : (cid != "") with
          | false =>
              have hcid : cid = "" := by simpa using hc
              subst hcid
              rw [issueRC_empty_cid env st spid year volume issue h1 hp]
              simp [h1, hp, strOptTruthy, pubid2container_esQueries]
          | true =>
              rw [issueRC_query env st spid year volume issue h1 cid hp hc]
              simp [h1, hp, strOptTruthy, hc, pubid2container_esQueries,
                esQueries_addTrace_esCount]

/-- Publication row already in the store of the C1 scenario: its
container resolution succeeds with container id abc123. -/
def pubRow1 : SimPubRow :=
  { sim_pubid := "pub1", pub_collection := "c", title := "J", issn := none,
    pub_type := none, publisher := none, container_issnl := none,
    container_ident := some "abc123", wikidata_qid := none }

/-- Issue metadata of the C1 scenario: year 1998, volume present but the
empty string, issue 3. -/
def issueMeta1 : IssueMeta :=
  { collection := ["periodicals"], identifier := "sim_item_1", sim_pubid := "pub1",
    date := some "1998-01-01", volume := some "", issue := some "3" }

/-- Environment of the C1 scenario; the release index would answer 7. -/
def env1 : Env :=
  { api := fun _ => ApiResult.apiError 404
    es := fun _ _ _ _ => 7
    parsePub := fun _ => Except.error PyErr.jsonDecodeError
    parseIssue := fun _ => Except.ok { metadata := issueMeta1, page_numbers := none } }

/-- Store state of the C1 scenario: pubRow1 was ingested earlier. -/
def st1 : RunState :=
  { committed := { sim_pub := [pubRow1], sim_issue := [], release_counts := [] }
    pending := { sim_pub := [pubRow1], sim_issue := [], release_counts := [] }
    cache := [], trace := [], commits := 0 }

/-- C1 counterexample: an issue record on which year, volume and issue
are all present (volume is the empty string) and whose owning publication
resolves to container abc123, yet the load_issues run issues no
release-count query and persists release_count as absent: the code tests
Python truthiness, not presence, so a present-but-empty volume suppresses
the query. -/
theorem C1_counterexample :
    issueMeta1.volume = some "" ∧ issueMeta1.issue = some "3" ∧
    yearOfDate issueMeta1.date = Except.ok (some 1998) ∧
    (pubid2container st1 "pub1").1 = some "abc123" ∧
    esQueries (resultState (load_issues env1 ["x"] st1)) = 0 ∧
    (issuesOf (load_issues env1 ["x"] st1)).map SimIssueRow.release_count = [none] := by
  refine ⟨rfl, rfl, rfl, by decide, by decide, by decide⟩

/-! ## C4 -/

/-- Two states agree on the durable observables: the commit counter and
the committed file contents. -/
def sameDurable (st st2 : RunState) : Prop :=
  st2.commits = st.commits ∧ st2.committed = st.committed

/-- A run result whose carried state agrees with a reference state on the
durable observables. -/
def resultDurable (st : RunState) : RunResult → Prop
  | RunResult.ok st2 => sameDurable st st2
  | RunResult.err _ st2 => sameDurable st st2

theorem sameDurable_refl (st : RunState) : sameDurable st st := ⟨rfl, rfl⟩

theorem sameDurable_trans {a b c : RunState} (h1 : sameDurable a b) (h2 : sameDurable b c) :
    sameDurable a c := ⟨h2.1.trans h1.1, h2.2.trans h1.2⟩

theorem resultDurable_of_trans {a b : RunState} {r : RunResult}
    (h1 : sameDurable a b) (h2 : resultDurable b r) : resultDurable a r := by
  cases r with
  | ok st2 => exact sameDurable_trans h1 h2
  | err e st2 => exact sameDurable_trans h1 h2

theorem sameDurable_addTrace (e : ExtEvent) (st : RunState) :
    sameDurable st (addTrace e st) := ⟨rfl, rfl⟩

theorem sameDurable_setCache (k : String) (v : Option String) (st : RunState) :
    sameDurable st (setCache k v st) := ⟨rfl, rfl⟩

theorem sameDurable_writeSimPub (r : SimPubRow) (st : RunState) :
    sameDurable st (writeSimPub r st) := ⟨rfl, rfl⟩

theorem sameDurable_writeSimIssue (r : SimIssueRow) (st : RunState) :
    sameDurable st (writeSimIssue r st) := ⟨rfl, rfl⟩

theorem pubid2container_durable (st : RunState) (spid : String) :
    sameDurable st (pubid2container st spid).2 := by
  unfold pubid2container
  cases h : lookupAssoc st.cache spid with
  | some v => exact sameDurable_refl st
  | none =>
      simp only [h]
      split <;> exact ⟨rfl, rfl⟩

theorem lookup_container_state (env : Env) (st : RunState) (issnl : String) :
    (lookup_container env st issnl).2 = addTrace (ExtEvent.containerLookup issnl) st := by
  unfold lookup_container
  cases h : env.api issnl with
  | found c => rfl
  | apiError s =>
      simp only [h]
      split <;> rfl

theorem pubContainer_durable (env : Env) (st : RunState) (meta : PubMeta) :
    sameDurable st (pubContainer env st meta).2 := by
  unfold pubContainer
  split
  · rw [lookup_container_state]
    exact sameDurable_addTrace _ st
  · exact sameDurable_refl st

theorem issueReleaseCount_durable (env : Env) (st : RunState) (spid : String)
    (year : Option Int) (volume issue : Option String) :
    sameDurable st (issueReleaseCount env st spid year volume issue).2 := by
  cases h1 : (intOptTruthy year && strOptTruthy volume && strOptTruthy issue) with
  | false =>
      rw [issueRC_not_truthy env st spid year volume issue h1]
      exact sameDurable_refl st
  | true =>
      cases hp : (pubid2container st spid).1 with
      | none =>
          rw [issueRC_no_container env st spid year volume issue h1 hp]
          exact pubid2container_durable st spid
      | some cid =>
          cases hc : (cid != "") with
          | false =>
              have hcid : cid = "" := by simpa using hc
              subst hcid
              rw [issueRC_empty_cid env st spid year volume issue h1 hp]
              exact pubid2container_durable st spid
          | true =>
              rw [issueRC_query env st spid year volume issue h1 cid hp hc]
              exact sameDurable_trans (pubid2container_durable st spid)
                (sameDurable_addTrace _ _)

theorem processPubObj_durable (env : Env) (obj : PubObj) (st : RunState) :
    resultDurable st (processPubObj env obj st) := by
  unfold processPubObj
  dsimp only
  split
  · cases hc : (pubContainer env st obj.metadata).1 with
    | error e =>
        simp only [hc]
        exact pubContainer_durable env st obj.metadata
    | ok container =>
        simp only [hc, insert_sim_pub_ok]
        exact sameDurable_trans (pubContainer_durable env st obj.metadata)
          (sameDurable_writeSimPub _ _)
  · exact sameDurable_refl st

theorem processIssueObj_durable (env : Env) (obj : IssueObj) (st : RunState) :
    resultDurable st (processIssueObj env obj st) := by
  unfold processIssueObj
  dsimp only
  split
  · split
    · exact sameDurable_refl st
    · cases hy : yearOfDate obj.metadata.date with
      | error e => simp only [hy]; exact sameDurable_refl st
      | ok year =>
          simp only [hy]
          cases hpg : pageRange obj.page_numbers with
          | error e => simp only [hpg]; exact sameDurable_refl st
          | ok pr =>
              simp only [hpg, insert_sim_issue_ok]
              exact sameDurable_trans
                (issueReleaseCount_durable env st obj.metadata.sim_pubid year
                  obj.metadata.volume obj.metadata.issue)
                (sameDurable_writeSimIssue _ _)
  · exact sameDurable_refl st

theorem loadPubsLoop_durable (env : Env) (lines : List String) :
    ∀ st : RunState, resultDurable st (loadPubsLoop env lines st) := by
  induction lines with
  | nil => intro st; exact sameDurable_refl st
  | cons line rest ih =>
      intro st
      rw [loadPubsLoop]
      split
      · exact ih st
      · cases hp : env.parsePub line with
        | error e => exact sameDurable_refl st
        | ok obj =>
            have hobj := processPubObj_durable env obj st
            cases hpr : processPubObj env obj st with
            | ok st1 =>
                rw [hpr] at hobj
                simp only [hpr]
                exact resultDurable_of_trans hobj (ih st1)
            | err e st1 =>
                rw [hpr] at hobj
                simp only [hpr]
                exact hobj

theorem loadIssuesLoop_durable (env : Env) (lines : List String) :
    ∀ st : RunState, resultDurable st (loadIssuesLoop env lines st) := by
  induction lines with
  | nil => intro st; exact sameDurable_refl st
  | cons line rest ih =>
      intro st
      rw [loadIssuesLoop]
      split
      · exact ih st
      · cases hp : env.parseIssue line with
        | error e => exact sameDurable_refl st
        | ok obj =>
            have hobj := processIssueObj_durable env obj st
            cases hpr : processIssueObj env obj st with
            | ok st1 =>
                rw [hpr] at hobj
                simp only [hpr]
                exact resultDurable_of_trans hobj (ih st1)
            | err e st1 =>
                rw [hpr] at hobj
                simp only [hpr]
                exact hobj

/-- C4: each load entry point commits exactly once, at the end of the
stream, on success (the durable contents then equal the whole pending
transaction); when any record raises partway through, no commit happens
and the durable store is exactly what it was before the batch began. -/
theorem C4_single_commit (env : Env) (lines : List String) (st : RunState) :
    (∀ st2, load_pubs env lines st = RunResult.ok st2 →
      st2.commits = st.commits + 1 ∧ st2.committed = st2.pending) ∧
    (∀ e st2, load_pubs env lines st = RunResult.err e st2 →
      st2.commits = st.commits ∧ st2.committed = st.committed) ∧
    (∀ st2, load_issues env lines st = RunResult.ok st2 →
      st2.commits = st.commits + 1 ∧ st2.committed = st2.pending) ∧
    (∀ e st2, load_issues env lines st = RunResult.err e st2 →
      st2.commits = st.commits ∧ st2.committed = st.committed) := by
  have hp := loadPubsLoop_durable env lines st
  have hi := loadIssuesLoop_durable env lines st
  refine ⟨?_, ?_, ?_, ?_⟩
  · intro st2 h
    unfold load_pubs at h
    cases hl : loadPubsLoop env lines st with
    | ok st1 =>
        rw [hl] at h hp
        simp only [RunResult.ok.injEq] at h
        subst h
        exact ⟨by simp [commitState, hp.1], rfl⟩
    | err e st1 => rw [hl] at h; exact absurd h (by simp)
  · intro e st2 h
    unfold load_pubs at h
    cases hl : loadPubsLoop env lines st with
    | ok st1 => rw [hl] at h; exact absurd h (by simp)
    | err e1 st1 =>
        rw [hl] at h hp
        simp only [RunResult.err.injEq] at h
        obtain ⟨he, hst⟩ := h
        subst hst
        exact ⟨hp.1, hp.2⟩
  · intro st2 h
    unfold load_issues at h
    cases hl : loadIssuesLoop env lines st with
    | ok st1 =>
        rw [hl] at h hi
        simp only [RunResult.ok.injEq] at h
        subst h
        exact ⟨by simp [commitState, hi.1], rfl⟩
    | err e st1 => rw [hl] at h; exact absurd h (by simp)
  · intro e st2 h
    unfold load_issues at h
    cases hl : loadIssuesLoop env lines st with
    | ok st1 => rw [hl] at h; exact absurd h (by simp)
    | err e1 st1 =>
        rw [hl] at h hi
        simp only [RunResult.err.injEq] at h
        obtain ⟨he, hst⟩ := h
        subst hst
        exact ⟨hi.1, hi.2⟩

/-- Witness for C4: the issue run over one good line commits once; the
pub run over an unparseable line aborts with the durable store
untouched. -/
theorem C4_single_commit_witness :
    (resultState (load_issues env1 ["x"] st1)).commits = st1.commits + 1 ∧
    ((resultState (load_pubs env1 ["x"] st1)).commits = st1.commits ∧
     (resultState (load_pubs env1 ["x"] st1)).committed = st1.committed) :=
  ⟨((C4_single_commit env1 ["x"] st1).2.2.1 (resultState (load_issues env1 ["x"] st1))
      (by rfl)).1,
   (C4_single_commit env1 ["x"] st1).2.1 PyErr.jsonDecodeError
     (resultState (load_pubs env1 ["x"] st1)) (by rfl)⟩

/-! ## C5 -/

theorem pubContainer_truthy (env : Env) (st : RunState) (meta : PubMeta)
    (hissn : strOptTruthy meta.issn = true) :
    pubContainer env st meta = lookup_container env st (meta.issn.getD "") := by
  unfold pubContainer
  rw [hissn, if_pos rfl]

theorem lookup_container_apiError (env : Env) (st : RunState) (issnl : String) (s : Nat)
    (hapi : env.api issnl = ApiResult.apiError s) :
    lookup_container env st issnl =
      (if s = 404 then Except.ok none else Except.error (PyErr.apiException s),
       addTrace (ExtEvent.containerLookup issnl) st) := by
  unfold lookup_container
  simp only [hapi]
  by_cases h4 : s = 404
  · simp [h4]
  · simp [h4]

/-- C5: when the external container lookup signals an error during
publication ingestion, a 404 is treated as a normal no-container outcome
(the record is persisted with all resolved fields absent and processing
continues), while any other status propagates as an ApiException and
aborts the load_pubs run at that line. -/
theorem C5_not_found_vs_failure (env : Env) (obj : PubObj) (st : RunState) (s : Nat)
    (hmark : "periodicals" ∈ obj.metadata.collection)
    (hissn : strOptTruthy obj.metadata.issn = true)
    (hapi : env.api (obj.metadata.issn.getD "") = ApiResult.apiError s) :
    (s = 404 → processPubObj env obj st =
      RunResult.ok (writeSimPub (mkSimPubRow obj.metadata none)
        (addTrace (ExtEvent.containerLookup (obj.metadata.issn.getD "")) st))) ∧
    (s ≠ 404 → ∀ line rest, line ≠ "" → env.parsePub line = Except.ok obj →
      load_pubs env (line :: rest) st =
        RunResult.err (PyErr.apiException s)
          (addTrace (ExtEvent.containerLookup (obj.metadata.issn.getD "")) st)) := by
  have hpc : pubContainer env st obj.metadata =
      (if s = 404 then Except.ok none else Except.error (PyErr.apiException s),
       addTrace (ExtEvent.containerLookup (obj.metadata.issn.getD "")) st) := by
    rw [pubContainer_truthy env st obj.metadata hissn,
      lookup_container_apiError env st _ s hapi]
  constructor
  · intro h404
    subst h404
    have hpc1 : (pubContainer env st obj.metadata).1 = Except.ok none := by
      rw [hpc]; simp
    have hpc2 : (pubContainer env st obj.metadata).2 =
        addTrace (ExtEvent.containerLookup (obj.metadata.issn.getD "")) st := by
      rw [hpc]
    unfold processPubObj
    dsimp only
    rw [if_pos hmark]
    simp only [hpc1, hpc2, insert_sim_pub_ok]
  · intro hs line rest hline hparse
    have hpc1 : (pubContainer env st obj.metadata).1 =
        Except.error (PyErr.apiException s) := by
      rw [hpc]; simp [hs]
    have hpc2 : (pubContainer env st obj.metadata).2 =
        addTrace (ExtEvent.containerLookup (obj.metadata.issn.getD "")) st := by
      rw [hpc]
    have hproc : processPubObj env obj st =
        RunResult.err (PyErr.apiException s)
          (addTrace (ExtEvent.containerLookup (obj.metadata.issn.getD "")) st) := by
      unfold processPubObj
      dsimp only
      rw [if_pos hmark]
      simp only [hpc1, hpc2]
    unfold load_pubs
    rw [loadPubsLoop, if_neg hline]
    simp only [hparse, hproc]

/-- Publication metadata with an ISSN, used to exercise the lookup
error-handling paths. -/
def metaW : PubMeta :=
  { collection := ["periodicals"], sim_pubid := "pubW", identifier := "collW",
    title := "T", issn := some "0001-1111", pub_type := none, publisher := none }

/-- The parsed object of every line in the C5 scenarios. -/
def objW : PubObj := { metadata := metaW }

/-- Environment whose container lookup answers not-found. -/
def envW404 : Env :=
  { api := fun _ => ApiResult.apiError 404
    es := fun _ _ _ _ => 0
    parsePub := fun _ => Except.ok objW
    parseIssue := fun _ => Except.error PyErr.jsonDecodeError }

/-- Environment whose container lookup fails with a server error. -/
def envW500 : Env :=
  { api := fun _ => ApiResult.apiError 500
    es := fun _ _ _ _ => 0
    parsePub := fun _ => Except.ok objW
    parseIssue := fun _ => Except.error PyErr.jsonDecodeError }

/-- Witness for C5 at status 404 (record kept, no container) and status
500 (run aborted with an ApiException). -/
theorem C5_not_found_vs_failure_witness :
    processPubObj envW404 objW st0 =
      RunResult.ok (writeSimPub (mkSimPubRow metaW none)
        (addTrace (ExtEvent.containerLookup "0001-1111") st0)) ∧
    load_pubs envW500 ["x"] st0 =
      RunResult.err (PyErr.apiException 500)
        (addTrace (ExtEvent.containerLookup "0001-1111") st0) :=
  ⟨(C5_not_found_vs_failure envW404 objW st0 404 (by decide) (by decide) rfl).1 rfl,
   (C5_not_found_vs_failure envW500 objW st0 500 (by decide) (by decide) rfl).2
     (by decide) "x" [] (by decide) rfl⟩

/-! ## C6 -/

/-- C6 amendment: each resolved field of a persisted publication row
equals the resolved container's corresponding, possibly absent,
attribute: when resolution yields no container the three fields are
absent together; each field is non-null only if resolution succeeded; and
when the resolved container carries all three attributes the three fields
are populated together. -/
theorem C6_resolved_fields (meta : PubMeta) (cont : Option ContainerEntity) :
    (cont = none →
      (mkSimPubRow meta cont).container_issnl = none ∧
      (mkSimPubRow meta cont).container_ident = none ∧
      (mkSimPubRow meta cont).wikidata_qid = none) ∧
    (((mkSimPubRow meta cont).container_issnl.isSome ∨
      (mkSimPubRow meta cont).container_ident.isSome ∨
      (mkSimPubRow meta cont).wikidata_qid.isSome) → cont.isSome) ∧
    (∀ c, cont = some c → c.issnl.isSome → c.ident.isSome → c.wikidata_qid.isSome →
      (mkSimPubRow meta cont).container_issnl.isSome ∧
      (mkSimPubRow meta cont).container_ident.isSome ∧
      (mkSimPubRow meta cont).wikidata_qid.isSome) := by
  cases cont with
  | none => simp [mkSimPubRow]
  | some c =>
      refine ⟨by simp, by simp, ?_⟩
      intro c2 hc2 h1 h2 h3
      injection hc2 with hc2
      subst hc2
      simpa [mkSimPubRow] using ⟨h1, h2, h3⟩

/-- A container entity carrying all three attributes. -/
def contFull : ContainerEntity :=
  { issnl := some "1111-2222", ident := some "c1", wikidata_qid := some "Q9" }

/-- Witness for C6 at a failed resolution and at a fully populated
container. -/
theorem C6_resolved_fields_witness :
    ((mkSimPubRow metaW none).container_issnl = none ∧
     (mkSimPubRow metaW none).container_ident = none ∧
     (mkSimPubRow metaW none).wikidata_qid = none) ∧
    ((mkSimPubRow metaW (some contFull)).container_issnl.isSome ∧
     (mkSimPubRow metaW (some contFull)).container_ident.isSome ∧
     (mkSimPubRow metaW (some contFull)).wikidata_qid.isSome) :=
  ⟨(C6_resolved_fields metaW none).1 rfl,
   (C6_resolved_fields metaW (some contFull)).2.2 contFull rfl (by decide) (by decide)
     (by decide)⟩

/-- A container entity with no wikidata qid, as the external catalog
commonly returns. -/
def contNoQid : ContainerEntity :=
  { issnl := some "0001-0001", ident := some "abcd1234", wikidata_qid := none }

/-- Publication metadata of the C6 scenario. -/
def pubMeta6 : PubMeta :=
  { collection := ["periodicals"], sim_pubid := "pub6", identifier := "coll6",
    title := "T6", issn := some "0001-0001", pub_type := none, publisher := none }

/-- Environment of the C6 scenario: resolution succeeds but the container
entity lacks a wikidata qid. -/
def env6 : Env :=
  { api := fun _ => ApiResult.found contNoQid
    es := fun _ _ _ _ => 0
    parsePub := fun _ => Except.ok { metadata := pubMeta6 }
    parseIssue := fun _ => Except.error PyErr.jsonDecodeError }

/-- C6 counterexample: a load_pubs run whose container resolution
succeeds persists a row with container_issnl and container_ident
populated but resolved_wikidata_qid absent, so the three fields are not
always populated together when resolution succeeds. -/
theorem C6_counterexample :
    (pubsOf (load_pubs env6 ["x"] st0)).map
        (fun r => (r.container_issnl, r.container_ident, r.wikidata_qid)) =
      [(some "0001-0001", some "abcd1234", none)] := by decide

/-! ## C7 -/

/-- C7: an issue input line whose item identifier ends in _index or
_contents is excluded from persistence entirely: processing the line is a
no-op and the whole run is unchanged by its presence, whatever its other
fields hold. -/
theorem C7_meta_items_excluded (env : Env) (line : String) (obj : IssueObj)
    (rest : List String) (st : RunState)
    (hparse : env.parseIssue line = Except.ok obj)
    (hmark : "periodicals" ∈ obj.metadata.collection)
    (hsuffix : (strEndsWith obj.metadata.identifier "_index" ||
                strEndsWith obj.metadata.identifier "_contents") = true) :
    load_issues env (line :: rest) st = load_issues env rest st := by
  have hproc : processIssueObj env obj st = RunResult.ok st := by
    unfold processIssueObj
    dsimp only
    rw [if_pos hmark, hsuffix, if_pos rfl]
  have hloop : loadIssuesLoop env (line :: rest) st = loadIssuesLoop env rest st := by
    by_cases hline : line = ""
    · rw [loadIssuesLoop, if_pos hline]
    · rw [loadIssuesLoop, if_neg hline]
      simp only [hparse, hproc]
  unfold load_issues
  rw [hloop]

/-- Issue metadata whose identifier carries the _index suffix but whose
other fields are all valid. -/
def issueMeta7 : IssueMeta :=
  { collection := ["periodicals"], identifier := "sim_z_0001_index", sim_pubid := "p7",
    date := some "1990-01-01", volume := some "1", issue := some "2" }

/-- Environment of the C7 witness. -/
def env7 : Env :=
  { api := fun _ => ApiResult.apiError 404
    es := fun _ _ _ _ => 3
    parsePub := fun _ => Except.error PyErr.jsonDecodeError
    parseIssue := fun _ => Except.ok { metadata := issueMeta7, page_numbers := none } }

/-- Witness for C7 at a concrete suffixed item. -/
theorem C7_meta_items_excluded_witness :
    load_issues env7 ["a"] st0 = load_issues env7 [] st0 :=
  C7_meta_items_excluded env7 "a" { metadata := issueMeta7, page_numbers := none } [] st0
    rfl (by decide) (by decide)

/-! ## C8 -/

theorem loadPubsLoop_blank (env : Env) (rest : List String) (st : RunState) :
    loadPubsLoop env ("" :: rest) st = loadPubsLoop env rest st := by
  rw [loadPubsLoop, if_pos rfl]

theorem loadIssuesLoop_blank (env : Env) (rest : List String) (st : RunState) :
    loadIssuesLoop env ("" :: rest) st = loadIssuesLoop env rest st := by
  rw [loadIssuesLoop, if_pos rfl]

/-- C8 amendment: both entry points skip exactly the empty lines: an
empty line is dropped with no effect on the run, while every non-empty
line, whitespace-only ones included, is handed to the JSON parser, whose
failure aborts the run at the raise-time state with nothing committed. -/
theorem C8_blank_line_handling (env : Env) (rest : List String) (st : RunState) :
    (load_pubs env ("" :: rest) st = load_pubs env rest st) ∧
    (load_issues env ("" :: rest) st = load_issues env rest st) ∧
    (∀ line e, line ≠ "" → env.parsePub line = Except.error e →
      load_pubs env (line :: rest) st = RunResult.err e st) ∧
    (∀ line e, line ≠ "" → env.parseIssue line = Except.error e →
      load_issues env (line :: rest) st = RunResult.err e st) := by
  refine ⟨?_, ?_, ?_, ?_⟩
  · unfold load_pubs
    rw [loadPubsLoop_blank]
  · unfold load_issues
    rw [loadIssuesLoop_blank]
  · intro line e hline hparse
    unfold load_pubs
    rw [loadPubsLoop, if_neg hline]
    simp only [hparse]
  · intro line e hline hparse
    unfold load_issues
    rw [loadIssuesLoop, if_neg hline]
    simp only [hparse]

/-- Environment whose line parsers fail, modelling json.loads on input
that holds no JSON value; only its value on whitespace-only lines is
consulted below. -/
def envWS : Env :=
  { api := fun _ => ApiResult.apiError 404
    es := fun _ _ _ _ => 0
    parsePub := fun _ => Except.error PyErr.jsonDecodeError
    parseIssue := fun _ => Except.error PyErr.jsonDecodeError }

/-- C8 counterexample: a line holding a single space is whitespace-only
yet non-empty, so neither entry point skips it: both hand it to the JSON
parser and the run aborts with a decode error instead of skipping the
line without error. -/
theorem C8_counterexample :
    (" " != "") = true ∧ trimChars " ".toList = [] ∧
    load_pubs envWS [" "] st0 = RunResult.err PyErr.jsonDecodeError st0 ∧
    load_issues envWS [" "] st0 = RunResult.err PyErr.jsonDecodeError st0 := by
  refine ⟨by decide, by decide, by decide, by decide⟩

/-- Witness for C8: an empty line is dropped by load_pubs, and a
non-empty whitespace line aborts the run with the parser error. -/
theorem C8_blank_line_handling_witness :
    load_pubs envWS [""] st0 = load_pubs envWS [] st0 ∧
    load_pubs envWS ["  ", "z"] st0 = RunResult.err PyErr.jsonDecodeError st0 :=
  ⟨(C8_blank_line_handling envWS [] st0).1,
   (C8_blank_line_handling envWS ["z"] st0).2.2.1 "  " PyErr.jsonDecodeError
     (by decide) rfl⟩
